import Mathlib

/-!
Shallow embedding of the twitter_clone repository's social-graph core
(src/models.py, src/services.py, src/routes.py).

The storage model (SQLAlchemy tables `user`, `tweet`, `media`, and the
association tables `followers` and `likes`) is embedded as lists of rows in
a `DB` record.  Autoincrement primary keys are modelled with explicit
`next_tweet_id` / `next_media_id` counters.  Timestamps are `Nat` (the code
stores UTC datetimes; only their ordering matters here).  Each service
function of src/services.py is translated into a pure function taking and
returning the `DB` state alongside the tuple the Python function returns.
SQLAlchemy's `order_by(Tweet.created_at.desc())` is modelled as a stable
sort (ties keep table order), and the default relationship cascade of
`db.session.delete(tweet)` — delete rows of the `likes` secondary table,
null out `Media.tweet_id` — is made explicit in `delete_tweet`.
-/

namespace TwitterClone

/-- Row of table `user` (src/models.py, class User). -/
structure User where
  id : Nat
  name : String
  api_key : String
deriving DecidableEq

/-- Row of table `tweet` (src/models.py, class Tweet): `content`,
`created_at` (UTC timestamp, modelled as `Nat`), owner `user_id`. -/
structure Tweet where
  id : Nat
  content : String
  created_at : Nat
  user_id : Nat
deriving DecidableEq

/-- Row of table `media` (src/models.py, class Media); `tweet_id` is the
nullable foreign key to the tweet the media is attached to. -/
structure Media where
  id : Nat
  filename : String
  path : String
  uploaded_at : Nat
  user_id : Nat
  tweet_id : Option Nat
deriving DecidableEq

/-- URL of a media file (src/models.py, `Media.get_url`):
`f"/static/uploads/{self.filename}"`. -/
def Media.get_url (m : Media) : String :=
  "/static/uploads/" ++ m.filename

/-- The database: the five tables of src/models.py.  `followers` holds
pairs (follower_id, followed_id); `likes` holds pairs (user_id, tweet_id);
both have a composite primary key on the pair.  `next_tweet_id` and
`next_media_id` model the autoincrement primary-key counters. -/
structure DB where
  users : List User
  tweets : List Tweet
  medias : List Media
  followers : List (Nat × Nat)
  likes : List (Nat × Nat)
  next_tweet_id : Nat
  next_media_id : Nat
deriving DecidableEq

/-- `Tweet.query.get(tweet_id)`: primary-key lookup in table `tweet`. -/
def getTweet (db : DB) (tweet_id : Nat) : Option Tweet :=
  db.tweets.find? (fun t => t.id == tweet_id)

/-- `User.query.get(user_id)`: primary-key lookup in table `user`
(src/services.py, `get_user_by_id`). -/
def get_user_by_id (db : DB) (user_id : Nat) : Option User :=
  db.users.find? (fun u => u.id == user_id)

/-- src/services.py `create_tweet(user, content, media_ids)`.
Creates the tweet row (id from the autoincrement counter, obtained by
`db.session.flush()`), then attaches every media row whose id is in
`media_ids` AND whose `user_id` equals `user.id` (the query
`Media.query.filter(Media.id.in_(media_ids), Media.user_id == user.id)`);
all other rows are untouched.  Returns (new state, success, tweet id,
error message). -/
def create_tweet (db : DB) (user : User) (content : String)
    (media_ids : List Nat) (now : Nat) : DB × Bool × Option Nat × Option String :=
  let tid := db.next_tweet_id
  let tweet : Tweet := ⟨tid, content, now, user.id⟩
  let medias := db.medias.map (fun m =>
    if m.id ∈ media_ids ∧ m.user_id = user.id then { m with tweet_id := some tid } else m)
  ({ db with tweets := db.tweets ++ [tweet], medias := medias,
             next_tweet_id := tid + 1 },
   true, some tid, none)

/-- src/services.py `upload_media(user, filename, path)`: inserts an
unattached media row owned by `user`. -/
def upload_media (db : DB) (user : User) (filename : String) (path : String)
    (now : Nat) : DB × Bool × Option Nat × Option String :=
  let mid := db.next_media_id
  let media : Media := ⟨mid, filename, path, now, user.id, none⟩
  ({ db with medias := db.medias ++ [media], next_media_id := mid + 1 },
   true, some mid, none)

/-- src/services.py `delete_tweet(user, tweet_id)`.  Looks the tweet up;
absent → (False, "Твит не найден"); owned by someone else →
(False, "Удалять можно только свои твиты"); otherwise
`db.session.delete(tweet)`: the row is removed, the rows of the `likes`
secondary table referencing it are removed, and the nullable
`Media.tweet_id` of its attached media is set to NULL (SQLAlchemy's
default relationship cascade for a `secondary` table and a nullable
foreign key). -/
def delete_tweet (db : DB) (user : User) (tweet_id : Nat) : DB × Bool × Option String :=
  match getTweet db tweet_id with
  | none => (db, false, some "Твит не найден")
  | some tweet =>
    if tweet.user_id ≠ user.id then
      (db, false, some "Удалять можно только свои твиты")
    else
      ({ db with
         tweets := db.tweets.filter (fun t => t.id ≠ tweet.id),
         likes := db.likes.filter (fun e => e.2 ≠ tweet.id),
         medias := db.medias.map (fun m =>
           if m.tweet_id = some tweet.id then { m with tweet_id := none } else m) },
       true, none)

/-- src/services.py `like_tweet(user, tweet_id)`: absent tweet →
(False, "Твит не найден"); an existing like edge (the query
`tweet.likes.filter(User.id == user.id).first()`) → success, no change;
otherwise the edge (user.id, tweet.id) is inserted. -/
def like_tweet (db : DB) (user : User) (tweet_id : Nat) : DB × Bool × Option String :=
  match getTweet db tweet_id with
  | none => (db, false, some "Твит не найден")
  | some tweet =>
    if (user.id, tweet.id) ∈ db.likes then
      (db, true, none)
    else
      ({ db with likes := db.likes ++ [(user.id, tweet.id)] }, true, none)

/-- src/services.py `unlike_tweet(user, tweet_id)`: absent tweet →
(False, "Твит не найден"); no existing like edge → success, no change;
otherwise the edge (user.id, tweet.id) is removed. -/
def unlike_tweet (db : DB) (user : User) (tweet_id : Nat) : DB × Bool × Option String :=
  match getTweet db tweet_id with
  | none => (db, false, some "Твит не найден")
  | some tweet =>
    if (user.id, tweet.id) ∈ db.likes then
      ({ db with likes := db.likes.filter (fun e => e ≠ (user.id, tweet.id)) }, true, none)
    else
      (db, true, none)

/-- src/services.py `follow_user(user, user_id_to_follow)`: the self check
comes first (`user.id == user_id_to_follow` → "Нельзя подписаться на
себя"), then the target lookup ("Пользователь не найден"), then the
idempotent insert into the `followers` table. -/
def follow_user (db : DB) (user : User) (user_id_to_follow : Nat) : DB × Bool × Option String :=
  if user.id = user_id_to_follow then
    (db, false, some "Нельзя подписаться на себя")
  else
    match get_user_by_id db user_id_to_follow with
    | none => (db, false, some "Пользователь не найден")
    | some u2 =>
      if (user.id, u2.id) ∈ db.followers then
        (db, true, none)
      else
        ({ db with followers := db.followers ++ [(user.id, u2.id)] }, true, none)

/-- src/services.py `unfollow_user(user, user_id_to_unfollow)`: target
lookup ("Пользователь не найден"), then idempotent removal from the
`followers` table.  There is no self check. -/
def unfollow_user (db : DB) (user : User) (user_id_to_unfollow : Nat) : DB × Bool × Option String :=
  match get_user_by_id db user_id_to_unfollow with
  | none => (db, false, some "Пользователь не найден")
  | some u2 =>
    if (user.id, u2.id) ∈ db.followers then
      ({ db with followers := db.followers.filter (fun e => e ≠ (user.id, u2.id)) }, true, none)
    else
      (db, true, none)

/-- The ids of the users `user` follows (src/services.py `get_timeline`,
`followed_ids = [u.id for u in user.following]`). -/
def followed_ids (db : DB) (user : User) : List Nat :=
  (db.followers.filter (fun e => e.1 == user.id)).map (fun e => e.2)

/-- Order used by `order_by(Tweet.created_at.desc())`: `a` may precede `b`
iff `b.created_at ≤ a.created_at` (descending).  The SQL clause names no
further sort key, so the sort is modelled as stable: rows with equal
timestamps keep their table (insertion) order. -/
def createdDesc (a b : Tweet) : Prop :=
  b.created_at ≤ a.created_at

instance : DecidableRel createdDesc :=
  fun a b => Nat.decLe b.created_at a.created_at

instance : IsTotal Tweet createdDesc :=
  ⟨fun a b => Nat.le_total b.created_at a.created_at⟩

instance : IsTrans Tweet createdDesc :=
  ⟨fun _ _ _ h1 h2 => Nat.le_trans h2 h1⟩

/-- The rows selected and ordered by src/services.py `get_timeline`:
tweets whose `user_id` is the caller's or one of the followed ids, sorted
by `created_at` descending (stable in table order). -/
def timeline_tweets (db : DB) (user : User) : List Tweet :=
  List.insertionSort createdDesc
    (db.tweets.filter (fun t => t.user_id == user.id || (followed_ids db user).contains t.user_id))

/-- One element of the list returned by `get_timeline`: the dict
`id / content / attachments / author / likes` built for each tweet. -/
structure TweetView where
  id : Nat
  content : String
  attachments : List String
  author : Nat × String
  likes : List (Nat × String)
deriving DecidableEq

/-- Projection of one tweet row to its timeline dict (src/services.py
`get_timeline` loop body): attachments are `media.get_url()` for the media
rows attached to the tweet, the author is the backref `tweet.user`
(guaranteed by the non-null foreign key; the `none` branch is dead), and
the likers are the users with a like edge to the tweet. -/
def tweet_view (db : DB) (t : Tweet) : TweetView :=
  { id := t.id
    content := t.content
    attachments := (db.medias.filter (fun m => m.tweet_id == some t.id)).map Media.get_url
    author := match get_user_by_id db t.user_id with
      | some u => (u.id, u.name)
      | none => (t.user_id, "")
    likes := (db.users.filter (fun u => db.likes.contains (u.id, t.id))).map
      (fun u => (u.id, u.name)) }

/-- src/services.py `get_timeline(user)`. -/
def get_timeline (db : DB) (user : User) : List TweetView :=
  (timeline_tweets db user).map (tweet_view db)

/-- src/routes.py `create_tweet_route` after api-key resolution: empty
`tweet_data` is falsy (`not tweet_data`) → ValidationError 400; length
over 280 → ValidationError 400; otherwise the service `create_tweet` runs
(201 on success, ServerError 500 otherwise).  The `tweet_media_ids`
type check of the route is subsumed by the typed embedding.  Returns
(state, HTTP status, tweet id, error type). -/
def create_tweet_route (db : DB) (user : User) (tweet_data : String)
    (tweet_media_ids : List Nat) (now : Nat) : DB × Nat × Option Nat × Option String :=
  if tweet_data = "" then (db, 400, none, some "ValidationError")
  else if tweet_data.length > 280 then (db, 400, none, some "ValidationError")
  else
    let r := create_tweet db user tweet_data tweet_media_ids now
    if r.2.1 then (r.1, 201, r.2.2.1, none)
    else (db, 500, none, some "ServerError")

/-- src/routes.py `delete_tweet_route`: maps the service error message to
the reported error type — "Твит не найден" → NotFoundError (404),
"Удалять можно только свои твиты" → PermissionError (403, the Forbidden
case), anything else → ServerError (500). -/
def delete_tweet_error_type (error : String) : String :=
  if error = "Твит не найден" then "NotFoundError"
  else if error = "Удалять можно только свои твиты" then "PermissionError"
  else "ServerError"

/-- src/routes.py `follow_user_route`: maps the service error message to
the reported error type — "Нельзя подписаться на себя" (the SelfReference
case) → ValidationError (400), "Пользователь не найден" → NotFoundError
(404), anything else → ServerError (500). -/
def follow_error_type (error : String) : String :=
  if error = "Нельзя подписаться на себя" then "ValidationError"
  else if error = "Пользователь не найден" then "NotFoundError"
  else "ServerError"

/-! ### Helper lemmas -/

theorem getTweet_id {db : DB} {tid : Nat} {tw : Tweet} (h : getTweet db tid = some tw) :
    tw.id = tid := by
  simpa using List.find?_some h

theorem get_user_by_id_id {db : DB} {uid : Nat} {u2 : User}
    (h : get_user_by_id db uid = some u2) : u2.id = uid := by
  simpa using List.find?_some h

theorem tweet_view_id (db : DB) (t : Tweet) : (tweet_view db t).id = t.id := rfl

theorem mem_timeline_tweets (db : DB) (user : User) (t : Tweet) :
    t ∈ timeline_tweets db user ↔
      t ∈ db.tweets ∧ (t.user_id = user.id ∨ t.user_id ∈ followed_ids db user) := by
  unfold timeline_tweets
  rw [List.mem_insertionSort, List.mem_filter]
  simp

/-! ### C1 -/

/-- C1: for every user, `get_timeline` returns exactly the tweets whose
owner is the user or a user they follow: membership in the selected rows
is equivalent to being a stored tweet whose `user_id` is the caller's id
or a followed id (soundness and completeness of the filter), and a tweet
id appears among the returned views exactly when such a stored tweet with
that id exists. -/
theorem C1_timeline_sound_complete (db : DB) (user : User) :
    (∀ t : Tweet, t ∈ timeline_tweets db user ↔
        t ∈ db.tweets ∧ (t.user_id = user.id ∨ t.user_id ∈ followed_ids db user)) ∧
    (∀ tid : Nat, (∃ v ∈ get_timeline db user, v.id = tid) ↔
        ∃ t ∈ db.tweets, t.id = tid ∧
          (t.user_id = user.id ∨ t.user_id ∈ followed_ids db user)) := by
  refine ⟨fun t => mem_timeline_tweets db user t, fun tid => ?_⟩
  simp only [get_timeline, List.mem_map, mem_timeline_tweets]
  constructor
  · rintro ⟨v, ⟨t, ⟨htm, hsel⟩, rfl⟩, hid⟩
    exact ⟨t, htm, hid, hsel⟩
  · rintro ⟨t, htm, hid, hsel⟩
    exact ⟨tweet_view db t, ⟨t, ⟨htm, hsel⟩, rfl⟩, hid⟩

/-! ### C2 -/

/-- A database with two tweets by user 1 carrying the same `created_at`
timestamp, stored in table order id 1 then id 2. -/
def tiesDB : DB :=
  { users := [⟨1, "A", "key1"⟩],
    tweets := [⟨1, "a", 5, 1⟩, ⟨2, "b", 5, 1⟩],
    medias := [], followers := [], likes := [],
    next_tweet_id := 3, next_media_id := 1 }

/-- Pairwise order asserted by the spec for timelines: strictly descending
by timestamp, or equal timestamps broken by id descending. -/
def tbRel (a b : Tweet) : Prop :=
  b.created_at < a.created_at ∨ (b.created_at = a.created_at ∧ b.id < a.id)

instance : DecidableRel tbRel := fun _ _ =>
  inferInstanceAs (Decidable (_ ∨ _))

/-- The ordering asserted by the spec for timelines, as a predicate on the
returned sequence. -/
def tiebreakIdDesc (l : List Tweet) : Prop :=
  l.Pairwise tbRel

instance (l : List Tweet) : Decidable (tiebreakIdDesc l) :=
  inferInstanceAs (Decidable (l.Pairwise tbRel))

/-- C2 counterexample: `get_timeline` orders only by
`Tweet.created_at.desc()`; no id tie-break exists in the code.  On two
equal-timestamp tweets the returned order is table order (id 1 before
id 2), not id-descending. -/
theorem C2_counterexample :
    ¬ tiebreakIdDesc (timeline_tweets tiesDB ⟨1, "A", "key1"⟩) ∧
    (timeline_tweets tiesDB ⟨1, "A", "key1"⟩).map (fun t => t.id) = [1, 2] ∧
    (timeline_tweets tiesDB ⟨1, "A", "key1"⟩).map (fun t => t.created_at) = [5, 5] := by
  refine ⟨?_, by decide, by decide⟩
  decide

/-- C2 (amended): timelines are sorted non-increasing by `created_at`, but
the code applies no id tie-break: tweets with equal timestamps keep their
relative table order (stability of the sort), so the order is id-ascending
on ties when rows were inserted in id order, not id-descending. -/
theorem C2_amended_order (db : DB) (user : User) :
    List.Sorted createdDesc (timeline_tweets db user) ∧
    (∀ a b : Tweet, a.created_at = b.created_at →
      List.Sublist [a, b] (db.tweets.filter
        (fun t => t.user_id == user.id || (followed_ids db user).contains t.user_id)) →
      List.Sublist [a, b] (timeline_tweets db user)) := by
  refine ⟨List.sorted_insertionSort createdDesc _, fun a b he hs => ?_⟩
  exact List.pair_sublist_insertionSort (le_of_eq he.symm) hs

/-- Witness for the amended C2 at the concrete two-tweet database: the
equal-timestamp pair stays in table order in the timeline. -/
theorem C2_amended_order_witness :
    List.Sublist [(⟨1, "a", 5, 1⟩ : Tweet), ⟨2, "b", 5, 1⟩]
      (timeline_tweets tiesDB ⟨1, "A", "key1"⟩) :=
  (C2_amended_order tiesDB ⟨1, "A", "key1"⟩).2 ⟨1, "a", 5, 1⟩ ⟨2, "b", 5, 1⟩ rfl
    (by decide)

/-! ### C3 -/

theorem like_tweet_found {db : DB} {u : User} {tid : Nat} {tw : Tweet}
    (htw : getTweet db tid = some tw) :
    like_tweet db u tid =
      if (u.id, tw.id) ∈ db.likes then (db, true, none)
      else ({ db with likes := db.likes ++ [(u.id, tw.id)] }, true, none) := by
  simp only [like_tweet, htw]

theorem unlike_tweet_found {db : DB} {u : User} {tid : Nat} {tw : Tweet}
    (htw : getTweet db tid = some tw) :
    unlike_tweet db u tid =
      if (u.id, tw.id) ∈ db.likes then
        ({ db with likes := db.likes.filter (fun e => e ≠ (u.id, tw.id)) }, true, none)
      else (db, true, none) := by
  simp only [unlike_tweet, htw]

theorem follow_user_found {db : DB} {u : User} {vid : Nat} {u2 : User}
    (hne : u.id ≠ vid) (hu2 : get_user_by_id db vid = some u2) :
    follow_user db u vid =
      if (u.id, u2.id) ∈ db.followers then (db, true, none)
      else ({ db with followers := db.followers ++ [(u.id, u2.id)] }, true, none) := by
  simp only [follow_user, if_neg hne, hu2]

theorem unfollow_user_found {db : DB} {u : User} {vid : Nat} {u2 : User}
    (hu2 : get_user_by_id db vid = some u2) :
    unfollow_user db u vid =
      if (u.id, u2.id) ∈ db.followers then
        ({ db with followers := db.followers.filter (fun e => e ≠ (u.id, u2.id)) }, true, none)
      else (db, true, none) := by
  simp only [unfollow_user, hu2]

/-- Number of copies of an edge in an edge table. -/
def edge_count (l : List (Nat × Nat)) (e : Nat × Nat) : Nat :=
  (l.filter (fun x => x = e)).length

theorem edge_count_eq_zero {l : List (Nat × Nat)} {e : Nat × Nat} (h : e ∉ l) :
    edge_count l e = 0 := by
  unfold edge_count
  rw [List.filter_eq_nil_iff.mpr]
  · rfl
  · intro x hx
    simp only [decide_eq_true_eq]
    rintro rfl
    exact h hx

theorem edge_count_nodup_mem {l : List (Nat × Nat)} {e : Nat × Nat}
    (hnd : l.Nodup) (hmem : e ∈ l) : edge_count l e = 1 := by
  induction l with
  | nil => cases hmem
  | cons a l ih =>
    rw [List.nodup_cons] at hnd
    rcases List.mem_cons.mp hmem with rfl | hmem2
    · unfold edge_count
      rw [List.filter_cons_of_pos (by simp)]
      have h0 : edge_count l e = 0 := edge_count_eq_zero hnd.1
      unfold edge_count at h0
      simp [h0]
    · have hane : a ≠ e := by
        rintro rfl
        exact hnd.1 hmem2
      unfold edge_count
      rw [List.filter_cons_of_neg (by simp [hane])]
      exact ih hnd.2 hmem2

theorem edge_count_append (l l2 : List (Nat × Nat)) (e : Nat × Nat) :
    edge_count (l ++ l2) e = edge_count l e + edge_count l2 e := by
  unfold edge_count
  rw [List.filter_append, List.length_append]

theorem edge_count_singleton (e : Nat × Nat) : edge_count [e] e = 1 := by
  unfold edge_count
  simp

/-- C3: like and follow edges behave as sets under the mutations.  With
the composite primary keys of the `likes` and `followers` tables (edges
are lists without duplicates), an existing tweet and an existing target
user: liking twice succeeds both times with no error and leaves exactly
one (user, tweet) edge; unliking with no edge present is a successful
no-op; following twice (target not self) succeeds both times leaving
exactly one (follower, followed) edge; unfollowing with no edge present is
a successful no-op; no call reports a duplicate error. -/
theorem C3_idempotent_edges (db : DB) (u : User) (tid vid : Nat)
    (hlnd : db.likes.Nodup) (hfnd : db.followers.Nodup)
    (ht : (getTweet db tid).isSome = true) (hv : (get_user_by_id db vid).isSome = true) :
    ((like_tweet db u tid).2.1 = true ∧ (like_tweet db u tid).2.2 = none ∧
      (like_tweet (like_tweet db u tid).1 u tid).2.1 = true ∧
      (like_tweet (like_tweet db u tid).1 u tid).2.2 = none ∧
      edge_count (like_tweet (like_tweet db u tid).1 u tid).1.likes (u.id, tid) = 1) ∧
    ((u.id, tid) ∉ db.likes → unlike_tweet db u tid = (db, true, none)) ∧
    (u.id ≠ vid →
      (follow_user db u vid).2.1 = true ∧ (follow_user db u vid).2.2 = none ∧
      (follow_user (follow_user db u vid).1 u vid).2.1 = true ∧
      (follow_user (follow_user db u vid).1 u vid).2.2 = none ∧
      edge_count (follow_user (follow_user db u vid).1 u vid).1.followers (u.id, vid) = 1) ∧
    ((u.id, vid) ∉ db.followers → unfollow_user db u vid = (db, true, none)) := by
  obtain ⟨tw, htw⟩ := Option.isSome_iff_exists.mp ht
  obtain ⟨u2, hu2⟩ := Option.isSome_iff_exists.mp hv
  have htwid : tw.id = tid := getTweet_id htw
  have hu2id : u2.id = vid := get_user_by_id_id hu2
  subst htwid
  subst hu2id
  refine ⟨?_, ?_, ?_, ?_⟩
  · by_cases hmem : (u.id, tw.id) ∈ db.likes
    · rw [like_tweet_found htw, if_pos hmem]
      refine ⟨rfl, rfl, ?_⟩
      rw [like_tweet_found htw, if_pos hmem]
      exact ⟨rfl, rfl, edge_count_nodup_mem hlnd hmem⟩
    · rw [like_tweet_found htw, if_neg hmem]
      refine ⟨rfl, rfl, ?_⟩
      have htw2 : getTweet { db with likes := db.likes ++ [(u.id, tw.id)] } tw.id = some tw := htw
      have hmem2 : (u.id, tw.id) ∈ db.likes ++ [(u.id, tw.id)] := by
        simp
      rw [like_tweet_found htw2, if_pos hmem2]
      refine ⟨rfl, rfl, ?_⟩
      rw [edge_count_append, edge_count_eq_zero hmem, edge_count_singleton]
  · intro hnl
    rw [unlike_tweet_found htw, if_neg hnl]
  · intro hne
    by_cases hmem : (u.id, u2.id) ∈ db.followers
    · rw [follow_user_found hne hu2, if_pos hmem]
      refine ⟨rfl, rfl, ?_⟩
      rw [follow_user_found hne hu2, if_pos hmem]
      exact ⟨rfl, rfl, edge_count_nodup_mem hfnd hmem⟩
    · rw [follow_user_found hne hu2, if_neg hmem]
      refine ⟨rfl, rfl, ?_⟩
      have hu2b : get_user_by_id
          { db with followers := db.followers ++ [(u.id, u2.id)] } u2.id = some u2 := hu2
      have hmem2 : (u.id, u2.id) ∈ db.followers ++ [(u.id, u2.id)] := by
        simp
      rw [follow_user_found hne hu2b, if_pos hmem2]
      refine ⟨rfl, rfl, ?_⟩
      rw [edge_count_append, edge_count_eq_zero hmem, edge_count_singleton]
  · intro hnf
    rw [unfollow_user_found hu2, if_neg hnf]

/-- Two users and one tweet (owned by user 2), no edges yet. -/
def c3DB : DB :=
  { users := [⟨1, "A", "k1"⟩, ⟨2, "B", "k2"⟩],
    tweets := [⟨1, "hi", 0, 2⟩],
    medias := [], followers := [], likes := [],
    next_tweet_id := 2, next_media_id := 1 }

/-- Witness for C3 on `c3DB`: user 1 likes tweet 1 twice (one edge
results), and unfollowing user 2 with no follow edge is a successful
no-op. -/
theorem C3_idempotent_edges_witness :
    edge_count (like_tweet (like_tweet c3DB ⟨1, "A", "k1"⟩ 1).1 ⟨1, "A", "k1"⟩ 1).1.likes (1, 1) = 1 ∧
    unfollow_user c3DB ⟨1, "A", "k1"⟩ 2 = (c3DB, true, none) := by
  have h := C3_idempotent_edges c3DB ⟨1, "A", "k1"⟩ 1 2
    (by decide) (by decide) (by decide) (by decide)
  exact ⟨h.1.2.2.2.2, h.2.2.2 (by decide)⟩

/-! ### C4 -/

theorem delete_tweet_found {db : DB} {u : User} {tid : Nat} {tw : Tweet}
    (htw : getTweet db tid = some tw) (hown : tw.user_id = u.id) :
    delete_tweet db u tid =
      ({ db with
         tweets := db.tweets.filter (fun t => t.id ≠ tw.id),
         likes := db.likes.filter (fun e => e.2 ≠ tw.id),
         medias := db.medias.map (fun m =>
           if m.tweet_id = some tw.id then { m with tweet_id := none } else m) },
       true, none) := by
  simp only [delete_tweet, htw]
  rw [if_neg]
  exact fun h => h hown

/-- C4: after a successful `delete_tweet(U, T)`, no timeline of any user
contains a view with id T, no like edge references T, and every media row
previously attached to T still exists with all its data but its
`tweet_id` cleared. -/
theorem C4_delete_cascade (db : DB) (u : User) (tid : Nat) (tw : Tweet)
    (htw : getTweet db tid = some tw) (hown : tw.user_id = u.id) :
    (delete_tweet db u tid).2.1 = true ∧
    (∀ w : User, ∀ v ∈ get_timeline (delete_tweet db u tid).1 w, v.id ≠ tid) ∧
    (∀ e ∈ (delete_tweet db u tid).1.likes, e.2 ≠ tid) ∧
    (∀ m ∈ db.medias, m.tweet_id = some tid →
      ∃ m2 ∈ (delete_tweet db u tid).1.medias,
        m2.id = m.id ∧ m2.filename = m.filename ∧ m2.path = m.path ∧
        m2.uploaded_at = m.uploaded_at ∧ m2.user_id = m.user_id ∧
        m2.tweet_id = none) := by
  have htwid : tw.id = tid := getTweet_id htw
  subst htwid
  rw [delete_tweet_found htw hown]
  refine ⟨rfl, ?_, ?_, ?_⟩
  · intro w v hv hvid
    simp only [get_timeline, List.mem_map] at hv
    obtain ⟨t, htm, rfl⟩ := hv
    rw [mem_timeline_tweets] at htm
    have htm2 := htm.1
    simp only [List.mem_filter, decide_eq_true_eq] at htm2
    exact htm2.2 (by simpa [tweet_view] using hvid)
  · intro e he
    have := (List.mem_filter.mp he).2
    simpa using this
  · intro m hm hatt
    refine ⟨{ m with tweet_id := none }, ?_, rfl, rfl, rfl, rfl, rfl, rfl⟩
    have := List.mem_map_of_mem
      (fun m3 => if m3.tweet_id = some tw.id then { m3 with tweet_id := none } else m3) hm
    simpa [hatt] using this

/-- Database for the C4 witness: user 1 owns tweet 1, media 1 is attached
to it and user 2 liked it. -/
def c4DB : DB :=
  { users := [⟨1, "A", "k1"⟩, ⟨2, "B", "k2"⟩],
    tweets := [⟨1, "hello", 0, 1⟩],
    medias := [⟨1, "p.png", "static/uploads/p.png", 0, 1, some 1⟩],
    followers := [], likes := [(2, 1)],
    next_tweet_id := 2, next_media_id := 2 }

/-- Witness for C4 on `c4DB`: deleting tweet 1 succeeds, the timeline of
its liker no longer offers a view with id 1, and media 1 survives
detached. -/
theorem C4_delete_cascade_witness :
    (delete_tweet c4DB ⟨1, "A", "k1"⟩ 1).2.1 = true ∧
    (∃ m2 ∈ (delete_tweet c4DB ⟨1, "A", "k1"⟩ 1).1.medias,
      m2.id = 1 ∧ m2.filename = "p.png" ∧ m2.tweet_id = none) := by
  have h := C4_delete_cascade c4DB ⟨1, "A", "k1"⟩ 1 ⟨1, "hello", 0, 1⟩ (by decide) rfl
  obtain ⟨m2, hmem, hid, hfn, _, _, _, hdet⟩ :=
    h.2.2.2 ⟨1, "p.png", "static/uploads/p.png", 0, 1, some 1⟩ (by decide) rfl
  exact ⟨h.1, m2, hmem, hid, hfn, hdet⟩

/-! ### C5 -/

/-- C5: `delete_tweet` fails with the not-found error (mapped by the route
to NotFoundError) when no tweet with the id exists, fails with the
ownership error (mapped to PermissionError, the Forbidden case) when the
tweet belongs to someone else, and in both cases returns the state
unchanged, so an existing tweet remains queryable with its data intact. -/
theorem C5_delete_tweet_errors (db : DB) (u : User) (tid : Nat) :
    (getTweet db tid = none →
      delete_tweet db u tid = (db, false, some "Твит не найден")) ∧
    (∀ tw : Tweet, getTweet db tid = some tw → tw.user_id ≠ u.id →
      delete_tweet db u tid = (db, false, some "Удалять можно только свои твиты") ∧
      getTweet (delete_tweet db u tid).1 tid = some tw) ∧
    delete_tweet_error_type "Твит не найден" = "NotFoundError" ∧
    delete_tweet_error_type "Удалять можно только свои твиты" = "PermissionError" := by
  refine ⟨?_, ?_, by decide, by decide⟩
  · intro h
    simp only [delete_tweet, h]
  · intro tw h hne
    have : delete_tweet db u tid = (db, false, some "Удалять можно только свои твиты") := by
      simp only [delete_tweet, h]
      rw [if_pos hne]
    exact ⟨this, by rw [this]; exact h⟩

/-- Witness for C5 on `c3DB`: deleting the missing tweet 99 reports
not-found; user 1 deleting user 2's tweet 1 reports the ownership error
and tweet 1 stays queryable. -/
theorem C5_delete_tweet_errors_witness :
    delete_tweet c3DB ⟨1, "A", "k1"⟩ 99 = (c3DB, false, some "Твит не найден") ∧
    delete_tweet c3DB ⟨1, "A", "k1"⟩ 1 =
      (c3DB, false, some "Удалять можно только свои твиты") ∧
    getTweet (delete_tweet c3DB ⟨1, "A", "k1"⟩ 1).1 1 = some ⟨1, "hi", 0, 2⟩ := by
  have h1 := (C5_delete_tweet_errors c3DB ⟨1, "A", "k1"⟩ 99).1 (by decide)
  have h2 := (C5_delete_tweet_errors c3DB ⟨1, "A", "k1"⟩ 1).2.1
    ⟨1, "hi", 0, 2⟩ (by decide) (by decide)
  exact ⟨h1, h2.1, h2.2⟩

/-! ### C6 -/

/-- C6: for every state and user, following oneself fails with the
self-reference error (mapped by the route to ValidationError 400) and
changes nothing — the check precedes every lookup — while `unfollow_user`
performs no self-reference check and can never report that error. -/
theorem C6_self_follow_check (db : DB) (u : User) (target : Nat) :
    follow_user db u u.id = (db, false, some "Нельзя подписаться на себя") ∧
    follow_error_type "Нельзя подписаться на себя" = "ValidationError" ∧
    (unfollow_user db u target).2.2 ≠ some "Нельзя подписаться на себя" := by
  refine ⟨by simp [follow_user], by decide, ?_⟩
  unfold unfollow_user
  cases h : get_user_by_id db target with
  | none => simp
  | some u2 =>
    by_cases hmem : (u.id, u2.id) ∈ db.followers
    · simp [hmem]
    · simp [hmem]

/-- Witness for C6 at a concrete state: user 1 following id 1 fails with
the self-reference error and leaves `c3DB` unchanged. -/
theorem C6_self_follow_check_witness :
    follow_user c3DB ⟨1, "A", "k1"⟩ 1 = (c3DB, false, some "Нельзя подписаться на себя") :=
  (C6_self_follow_check c3DB ⟨1, "A", "k1"⟩ 2).1

/-! ### C7 -/

/-- C7: `create_tweet` succeeds with no error, and a media row is attached
to the new tweet exactly when its id is in `media_ids` and it is owned by
the caller: matching rows get `tweet_id` set to the new tweet's id, all
other rows keep their previous `tweet_id` (silently skipped), and —
provided no row was already attached to the fresh id, which the foreign
key guarantees — every row attached to the new tweet matches both
conditions. -/
theorem C7_media_attach (db : DB) (u : User) (content : String)
    (media_ids : List Nat) (now : Nat)
    (hfk : ∀ m ∈ db.medias, m.tweet_id ≠ some db.next_tweet_id) :
    (create_tweet db u content media_ids now).2.1 = true ∧
    (create_tweet db u content media_ids now).2.2.2 = none ∧
    (∀ m ∈ db.medias, ∃ m2 ∈ (create_tweet db u content media_ids now).1.medias,
      m2.id = m.id ∧ m2.filename = m.filename ∧ m2.user_id = m.user_id ∧
      ((m.id ∈ media_ids ∧ m.user_id = u.id) →
        m2.tweet_id = some db.next_tweet_id) ∧
      (¬ (m.id ∈ media_ids ∧ m.user_id = u.id) → m2.tweet_id = m.tweet_id)) ∧
    (∀ m2 ∈ (create_tweet db u content media_ids now).1.medias,
      m2.tweet_id = some db.next_tweet_id →
      m2.id ∈ media_ids ∧ m2.user_id = u.id) := by
  refine ⟨rfl, rfl, ?_, ?_⟩
  · intro m hm
    by_cases hc : m.id ∈ media_ids ∧ m.user_id = u.id
    · refine ⟨{ m with tweet_id := some db.next_tweet_id }, ?_, rfl, rfl, rfl,
        fun _ => rfl, fun hnc => absurd hc hnc⟩
      have := List.mem_map_of_mem (fun m3 =>
        if m3.id ∈ media_ids ∧ m3.user_id = u.id
        then { m3 with tweet_id := some db.next_tweet_id } else m3) hm
      simpa [create_tweet, hc] using this
    · refine ⟨m, ?_, rfl, rfl, rfl, fun hc2 => absurd hc2 hc, fun _ => rfl⟩
      have := List.mem_map_of_mem (fun m3 =>
        if m3.id ∈ media_ids ∧ m3.user_id = u.id
        then { m3 with tweet_id := some db.next_tweet_id } else m3) hm
      simpa [create_tweet, hc] using this
  · intro m2 hm2 hatt
    simp only [create_tweet, List.mem_map] at hm2
    obtain ⟨m, hm, rfl⟩ := hm2
    by_cases hc : m.id ∈ media_ids ∧ m.user_id = u.id
    · simp only [if_pos hc]
      exact hc
    · rw [if_neg hc] at hatt ⊢
      exact absurd hatt (hfk m hm)

/-- Two users with one unattached media each, for the C7 witness. -/
def c7DB : DB :=
  { users := [⟨1, "A", "k1"⟩, ⟨2, "B", "k2"⟩],
    tweets := [],
    medias := [⟨1, "a.png", "pa", 0, 1, none⟩, ⟨2, "b.png", "pb", 0, 2, none⟩],
    followers := [], likes := [],
    next_tweet_id := 1, next_media_id := 3 }

/-- Witness for C7 on `c7DB`: user 1 creates a tweet naming media 1 (own),
media 2 (user 2's) and media 5 (absent): the call succeeds, media 1 is
attached to the new tweet 1 and media 2 is silently skipped. -/
theorem C7_media_attach_witness :
    (create_tweet c7DB ⟨1, "A", "k1"⟩ "hi" [1, 2, 5] 0).2.1 = true ∧
    (∃ m2 ∈ (create_tweet c7DB ⟨1, "A", "k1"⟩ "hi" [1, 2, 5] 0).1.medias,
      m2.id = 1 ∧ m2.tweet_id = some 1) ∧
    (∃ m2 ∈ (create_tweet c7DB ⟨1, "A", "k1"⟩ "hi" [1, 2, 5] 0).1.medias,
      m2.id = 2 ∧ m2.tweet_id = none) := by
  have h := C7_media_attach c7DB ⟨1, "A", "k1"⟩ "hi" [1, 2, 5] 0 (by decide)
  obtain ⟨m2, hmem, hid, _, _, hatt, _⟩ :=
    h.2.2.1 ⟨1, "a.png", "pa", 0, 1, none⟩ (by decide)
  obtain ⟨m3, hmem3, hid3, _, _, _, hskip⟩ :=
    h.2.2.1 ⟨2, "b.png", "pb", 0, 2, none⟩ (by decide)
  exact ⟨h.1, ⟨m2, hmem, hid, hatt (by decide)⟩,
    ⟨m3, hmem3, hid3, hskip (by decide)⟩⟩

/-! ### C8 -/

/-- A 281-character content string. -/
def longContent : String := String.mk (List.replicate 281 'a')

theorem longContent_length : longContent.length = 281 := by
  show (List.replicate 281 'a').length = 281
  rw [List.length_replicate]

/-- A one-user empty store for the C8 counterexample. -/
def c8DB : DB :=
  { users := [⟨1, "A", "k1"⟩], tweets := [], medias := [], followers := [],
    likes := [], next_tweet_id := 1, next_media_id := 1 }

/-- C8 counterexample: the Graph Mutation Engine itself (src/services.py
`create_tweet`) performs no content validation.  Called directly with a
281-character content it succeeds, reports no error and creates the tweet
row — the length invariant is enforced only by the route layer. -/
theorem C8_counterexample :
    longContent.length = 281 ∧
    (create_tweet c8DB ⟨1, "A", "k1"⟩ longContent [] 0).2.1 = true ∧
    (create_tweet c8DB ⟨1, "A", "k1"⟩ longContent [] 0).2.2.2 = none ∧
    (create_tweet c8DB ⟨1, "A", "k1"⟩ longContent [] 0).1.tweets.length = 1 := by
  exact ⟨longContent_length, rfl, rfl, rfl⟩

/-- C8 (amended): the content validation lives in the route layer
(src/routes.py `create_tweet_route`), not in the service: for empty or
over-280-character content the route fails with ValidationError (HTTP
400) before calling the service, and no row is created (state unchanged);
the service-layer `create_tweet` itself performs no validation. -/
theorem C8_route_validation (db : DB) (u : User) (s : String)
    (mids : List Nat) (now : Nat) (h : s = "" ∨ 280 < s.length) :
    create_tweet_route db u s mids now = (db, 400, none, some "ValidationError") := by
  rcases h with h | h
  · simp only [create_tweet_route, if_pos h]
  · by_cases he : s = ""
    · simp only [create_tweet_route, if_pos he]
    · simp only [create_tweet_route, if_neg he]
      rw [if_pos h]

/-- Witness for the amended C8: the route rejects the 281-character
content with ValidationError and leaves the store unchanged. -/
theorem C8_route_validation_witness :
    create_tweet_route c8DB ⟨1, "A", "k1"⟩ longContent [] 0 =
      (c8DB, 400, none, some "ValidationError") :=
  C8_route_validation c8DB ⟨1, "A", "k1"⟩ longContent [] 0
    (Or.inr (by rw [longContent_length]; omega))

/-! ### C9 -/

/-- C9: `create_tweet` does not restrict attachment to unattached media:
a media row owned by the caller whose id is listed is re-attached to the
new tweet even when it was attached to another existing tweet — its
`tweet_id` is overwritten, so it leaves the old tweet's attachment list.
The call succeeds with no error. -/
theorem C9_media_reattach (db : DB) (u : User) (content : String)
    (media_ids : List Nat) (now : Nat) (m : Media) (oldT : Nat)
    (hnd : (db.medias.map (fun m3 => m3.id)).Nodup)
    (hm : m ∈ db.medias) (hown : m.user_id = u.id) (hid : m.id ∈ media_ids)
    (hatt : m.tweet_id = some oldT) (hne : oldT ≠ db.next_tweet_id) :
    (create_tweet db u content media_ids now).2.1 = true ∧
    (create_tweet db u content media_ids now).2.2.2 = none ∧
    (∀ m2 ∈ (create_tweet db u content media_ids now).1.medias,
      m2.id = m.id → m2.tweet_id = some db.next_tweet_id ∧ m2.tweet_id ≠ some oldT) := by
  refine ⟨rfl, rfl, ?_⟩
  intro m2 hm2 hid2
  simp only [create_tweet, List.mem_map] at hm2
  obtain ⟨m3, hm3, rfl⟩ := hm2
  have hm3id : m3.id = m.id := by
    by_cases hc : m3.id ∈ media_ids ∧ m3.user_id = u.id
    · simpa [hc] using hid2
    · simpa [hc] using hid2
  have hm3m : m3 = m := List.inj_on_of_nodup_map hnd hm3 hm hm3id
  subst hm3m
  rw [if_pos ⟨hid, hown⟩]
  exact ⟨rfl, by simpa using Ne.symm hne⟩

/-- One media attached to the old tweet 1, for the C9 witness. -/
def c9DB : DB :=
  { users := [⟨1, "A", "k1"⟩],
    tweets := [⟨1, "old", 0, 1⟩],
    medias := [⟨1, "a.png", "pa", 0, 1, some 1⟩],
    followers := [], likes := [],
    next_tweet_id := 2, next_media_id := 2 }

/-- Witness for C9 on `c9DB`: creating a new tweet that names media 1
(already attached to tweet 1) succeeds and re-attaches the media to the
new tweet 2. -/
theorem C9_media_reattach_witness :
    (create_tweet c9DB ⟨1, "A", "k1"⟩ "new" [1] 0).2.1 = true ∧
    (⟨1, "a.png", "pa", 0, 1, some 2⟩ : Media).tweet_id = some 2 ∧
    (⟨1, "a.png", "pa", 0, 1, some 2⟩ : Media).tweet_id ≠ some 1 := by
  have h := C9_media_reattach c9DB ⟨1, "A", "k1"⟩ "new" [1] 0
    ⟨1, "a.png", "pa", 0, 1, some 1⟩ 1
    (by decide) (by decide) rfl (by decide) rfl (by decide)
  exact ⟨h.1, h.2.2 ⟨1, "a.png", "pa", 0, 1, some 2⟩ (by decide) rfl⟩

/-! ### C10 -/

theorem tweet_view_attachments (db : DB) (t : Tweet) :
    (tweet_view db t).attachments =
      (db.medias.filter (fun m => m.tweet_id == some t.id)).map Media.get_url := rfl

/-- C10: after `upload_media(user, "photo.png", path)` returns the fresh
media id and `create_tweet(user, content, [that id])` succeeds, the new
tweet's view in `get_timeline` carries exactly one attachment URL, derived
from the stored filename ("/static/uploads/photo.png"); `Media.get_url`
is a function of the filename, so equal filenames always yield equal
URLs.  The hypotheses are the autoincrement and foreign-key invariants of
the store: media ids are below the media counter, tweet ids below the
tweet counter, and every attached media references an existing tweet. -/
theorem C10_upload_attach_url (db : DB) (u : User) (path content : String)
    (now1 now2 : Nat)
    (hmb : ∀ m ∈ db.medias, m.id < db.next_media_id)
    (htb : ∀ t ∈ db.tweets, t.id < db.next_tweet_id)
    (hfk : ∀ m ∈ db.medias, ∀ tid0, m.tweet_id = some tid0 →
      ∃ t ∈ db.tweets, t.id = tid0) :
    (upload_media db u "photo.png" path now1).2.1 = true ∧
    (upload_media db u "photo.png" path now1).2.2.1 = some db.next_media_id ∧
    (create_tweet (upload_media db u "photo.png" path now1).1 u content
        [db.next_media_id] now2).2.1 = true ∧
    (create_tweet (upload_media db u "photo.png" path now1).1 u content
        [db.next_media_id] now2).2.2.1 = some db.next_tweet_id ∧
    (∃ v ∈ get_timeline (create_tweet (upload_media db u "photo.png" path now1).1 u
        content [db.next_media_id] now2).1 u,
      v.id = db.next_tweet_id ∧ v.attachments = ["/static/uploads/photo.png"]) ∧
    (∀ m1 m2 : Media, m1.filename = m2.filename → m1.get_url = m2.get_url) := by
  refine ⟨rfl, rfl, rfl, rfl, ?_, fun m1 m2 hf => by simp [Media.get_url, hf]⟩
  have hmedias : (create_tweet (upload_media db u "photo.png" path now1).1 u content
      [db.next_media_id] now2).1.medias =
      db.medias.map (fun m =>
        if m.id ∈ [db.next_media_id] ∧ m.user_id = u.id
        then { m with tweet_id := some db.next_tweet_id } else m) ++
      [⟨db.next_media_id, "photo.png", path, now1, u.id, some db.next_tweet_id⟩] := by
    show (db.medias ++ [(⟨db.next_media_id, "photo.png", path, now1, u.id, none⟩ : Media)]).map
        (fun m => if m.id ∈ [db.next_media_id] ∧ m.user_id = u.id
          then { m with tweet_id := some db.next_tweet_id } else m) = _
    rw [List.map_append]
    simp
  have htwmem : (⟨db.next_tweet_id, content, now2, u.id⟩ : Tweet) ∈
      (create_tweet (upload_media db u "photo.png" path now1).1 u content
        [db.next_media_id] now2).1.tweets := by
    show _ ∈ db.tweets ++ [(⟨db.next_tweet_id, content, now2, u.id⟩ : Tweet)]
    simp
  have hsel : (⟨db.next_tweet_id, content, now2, u.id⟩ : Tweet) ∈
      timeline_tweets (create_tweet (upload_media db u "photo.png" path now1).1 u content
        [db.next_media_id] now2).1 u :=
    (mem_timeline_tweets _ u _).2 ⟨htwmem, Or.inl rfl⟩
  refine ⟨tweet_view (create_tweet (upload_media db u "photo.png" path now1).1 u content
      [db.next_media_id] now2).1 ⟨db.next_tweet_id, content, now2, u.id⟩,
    List.mem_map_of_mem _ hsel, rfl, ?_⟩
  show ((create_tweet (upload_media db u "photo.png" path now1).1 u content
      [db.next_media_id] now2).1.medias.filter
      (fun m => m.tweet_id == some db.next_tweet_id)).map Media.get_url =
    ["/static/uploads/photo.png"]
  rw [hmedias, List.filter_append]
  have h1 : (db.medias.map (fun m =>
      if m.id ∈ [db.next_media_id] ∧ m.user_id = u.id
      then { m with tweet_id := some db.next_tweet_id } else m)).filter
        (fun m => m.tweet_id == some db.next_tweet_id) = [] := by
    rw [List.filter_eq_nil_iff]
    intro a ha
    rw [List.mem_map] at ha
    obtain ⟨m, hm, rfl⟩ := ha
    have hne1 : ¬ (m.id ∈ [db.next_media_id] ∧ m.user_id = u.id) := by
      rintro ⟨hin, -⟩
      rw [List.mem_singleton] at hin
      exact absurd hin (Nat.ne_of_lt (hmb m hm))
    rw [if_neg hne1]
    simp only [beq_iff_eq]
    cases hmt : m.tweet_id with
    | none => simp
    | some t0 =>
      obtain ⟨tr, htr, rfl⟩ := hfk m hm t0 hmt
      have hlt := htb tr htr
      simp only [Option.some.injEq]
      omega
  rw [h1]
  simp [Media.get_url]

/-- A one-user empty store for the C10 witness. -/
def c10DB : DB :=
  { users := [⟨1, "A", "k1"⟩], tweets := [], medias := [], followers := [],
    likes := [], next_tweet_id := 1, next_media_id := 1 }

/-- Witness for C10 on the empty store: uploading "photo.png" (media 1)
and tweeting with it puts exactly the URL "/static/uploads/photo.png" on
the new tweet's timeline view. -/
theorem C10_upload_attach_url_witness :
    ∃ v ∈ get_timeline (create_tweet
        (upload_media c10DB ⟨1, "A", "k1"⟩ "photo.png" "static/uploads/photo.png" 0).1
        ⟨1, "A", "k1"⟩ "hi" [1] 1).1 ⟨1, "A", "k1"⟩,
      v.id = 1 ∧ v.attachments = ["/static/uploads/photo.png"] := by
  have h := C10_upload_attach_url c10DB ⟨1, "A", "k1"⟩ "static/uploads/photo.png" "hi" 0 1
    (by simp [c10DB]) (by simp [c10DB]) (by simp [c10DB])
  exact h.2.2.2.2.1

end TwitterClone
